import Mathlib

/-!
Verification of the MedTracker core: the adherence calculator, the
drug-information client, the external-info orchestration wrapper, and the
two custom view actions of `src/medtrackerapp/views.py`.

The repository ships `views.py` and the test suite; `models.py` and
`services.py` themselves are not in the source tree, so the calculator,
the client and the orchestration wrapper are modelled from the
specification (sections 4.1-4.3), with the shapes pinned down by the
repository's own tests. `views.py` is embedded directly from its source.

Numbers: Python floats are modelled by rationals; Python `round(x, 2)`
is modelled as round-half-to-even at two decimal places, following the
spec's "standard half-up/half-even rounding to 2 decimal places".
Calendar dates are triples (year, month, day) with the proleptic
Gregorian ordinal used for comparisons and day arithmetic, matching
Python `datetime.date` semantics on valid dates.
-/

/-- A calendar date, as Python `datetime.date` (year 1..9999 when valid). -/
structure CalDate where
  year : Nat
  month : Nat
  day : Nat
deriving DecidableEq, Repr

/-- Gregorian leap-year test, as `calendar.isleap`. -/
def isLeap (y : Nat) : Bool :=
  (y % 4 = 0 && y % 100 ≠ 0) || y % 400 = 0

/-- Length of a month in a given year. -/
def daysInMonth (y m : Nat) : Nat :=
  if m = 2 then (if isLeap y then 29 else 28)
  else if m = 4 || m = 6 || m = 9 || m = 11 then 30
  else 31

/-- Days in the months strictly before month `m` of a non-leap year. -/
def cumMonthDays (m : Nat) : Nat :=
  match m with
  | 1 => 0
  | 2 => 31
  | 3 => 59
  | 4 => 90
  | 5 => 120
  | 6 => 151
  | 7 => 181
  | 8 => 212
  | 9 => 243
  | 10 => 273
  | 11 => 304
  | 12 => 334
  | _ => 365

/-- Day-of-year of a date, counting 1 for January 1st. -/
def dayOfYear (dt : CalDate) : Nat :=
  cumMonthDays dt.month + (if dt.month > 2 && isLeap dt.year then 1 else 0) + dt.day

/-- Number of leap years among `1, ..., y`. -/
def leapsUpTo (y : Nat) : Nat :=
  y / 4 - y / 100 + y / 400

/-- Proleptic Gregorian ordinal of a date, as Python `date.toordinal`
(January 1 of year 1 is day 1). On valid dates Python date comparison and
subtraction agree with comparison and subtraction of ordinals. -/
def CalDate.toOrdinal (dt : CalDate) : Nat :=
  365 * (dt.year - 1) + leapsUpTo (dt.year - 1) + dayOfYear dt

/-- A timestamp: the calendar date of the moment plus a within-day key
(e.g. minute of the day) that only matters for ordering timestamps. -/
structure Timestamp where
  date : CalDate
  minuteOfDay : Nat
deriving DecidableEq, Repr

/-- Total sort key of a timestamp: timestamps order first by calendar
date, then by the within-day key. -/
def Timestamp.key (t : Timestamp) : Nat :=
  1440 * t.date.toOrdinal + t.minuteOfDay

/-- Data model (spec section 3): a medication record. `prescribed_per_day`
is an integer; 0 is storable but invalidates dose-count math. -/
structure Medication where
  name : String
  dosage_mg : Int
  prescribed_per_day : Int
deriving DecidableEq, Repr

/-- Data model (spec section 3): a dose event. `was_taken` defaults to
true in the store; here every event carries its value explicitly. -/
structure DoseLog where
  taken_at : Timestamp
  was_taken : Bool
deriving DecidableEq, Repr

/-- Round-half-to-even of a rational to an integer ("banker's rounding",
the behaviour of Python `round` on exactly representable halves). -/
def roundHalfEven (q : ℚ) : ℤ :=
  if q - ⌊q⌋ < 1/2 then ⌊q⌋
  else if 1/2 < q - ⌊q⌋ then ⌊q⌋ + 1
  else if ⌊q⌋ % 2 = 0 then ⌊q⌋ else ⌊q⌋ + 1

/-- Python `round(x, 2)`: round to two decimal places, halves to even. -/
def round2 (q : ℚ) : ℚ :=
  (roundHalfEven (q * 100) : ℚ) / 100

/-- `q` has at most two decimal places: it is an integer number of
hundredths. -/
def TwoDecimal (q : ℚ) : Prop :=
  ∃ z : ℤ, q = (z : ℚ) / 100

/-- Number of events in the list marked taken. -/
def countTaken (events : List DoseLog) : Nat :=
  (events.filter (fun ev => ev.was_taken)).length

/-- Events marked taken whose `taken_at` calendar date lies in the
inclusive range `[s, e]`. -/
def countTakenInRange (events : List DoseLog) (s e : CalDate) : Nat :=
  (events.filter (fun ev =>
    ev.was_taken
      && s.toOrdinal ≤ ev.taken_at.date.toOrdinal
      && ev.taken_at.date.toOrdinal ≤ e.toOrdinal)).length

/-- Modelled from the spec: `Medication.expected_doses` of the missing
`models.py` (spec section 4.1). Returns `prescribed_per_day * days`;
raises an invalid-argument (ValueError) when `prescribed_per_day <= 0`,
and performs no validation of `days`. -/
def Medication.expected_doses (m : Medication) (days : Int) : Except String Int :=
  if m.prescribed_per_day ≤ 0 then
    .error "prescribed_per_day must be greater than zero."
  else
    .ok (m.prescribed_per_day * days)

/-- Modelled from the spec: `Medication.adherence_rate` of the missing
`models.py` (spec section 4.1). The medication's full list of associated
dose events is passed as plain data, per the spec's design note. Returns
0.0 with no events; otherwise the percentage of taken events among all
logged events, rounded to two decimal places (spec section 3 invariant). -/
def Medication.adherence_rate (_m : Medication) (events : List DoseLog) : ℚ :=
  if events.isEmpty then 0
  else round2 (100 * (countTaken events : ℚ) / (events.length : ℚ))

/-- The arithmetic tail of `adherence_rate_over_period` after the
expected count has been computed: 0.0 when `expected == 0` (the
boundary case the tests exercise by stubbing `expected_doses`),
otherwise `round(100 * taken / expected, 2)`. -/
def adherencePeriodTail (expected : Int) (taken : Nat) : ℚ :=
  if expected = 0 then 0
  else round2 (100 * (taken : ℚ) / (expected : ℚ))

/-- Modelled from the spec: `Medication.adherence_rate_over_period` of
the missing `models.py` (spec section 4.1). Raises an invalid-argument
(ValueError) when `start_date > end_date`; otherwise computes
`expected = expected_doses(number_of_days_in_range_inclusive)` (a raise
from `expected_doses` propagates), returns 0.0 immediately when
`expected == 0`, else `round(100 * taken / expected, 2)` where `taken`
counts taken events whose date lies in the inclusive range. -/
def Medication.adherence_rate_over_period (m : Medication)
    (events : List DoseLog) (start_date end_date : CalDate) :
    Except String ℚ :=
  if end_date.toOrdinal < start_date.toOrdinal then
    .error "start_date must be before or equal to end_date."
  else do
    let expected ← m.expected_doses
      ((end_date.toOrdinal : Int) - (start_date.toOrdinal : Int) + 1)
    pure (adherencePeriodTail expected (countTakenInRange events start_date end_date))

/-! ## Drug Info Client (spec section 4.2; `services.py` is not in the tree) -/

/-- A Python exception raised by the client: `ValueError` for
invalid-argument and domain errors, `RequestException` for a
network-level failure of the outbound request. -/
inductive PyErr where
  | valueError (msg : String)
  | requestException (msg : String)
deriving DecidableEq, Repr

/-- The message string carried by an exception. -/
def PyErr.message : PyErr → String
  | .valueError msg => msg
  | .requestException msg => msg

/-- A JSON field that may be a plain string or a list of strings
(OpenFDA serves `generic_name` in both shapes). -/
inductive StrOrList where
  | str (s : String)
  | list (l : List String)
deriving DecidableEq, Repr

/-- One matching record of the OpenFDA response body, with the fields
the client reads; `none` models an absent JSON field. -/
structure FdaResult where
  generic_name : Option StrOrList
  manufacturer_name : Option (List String)
  warnings : Option (List String)
  purpose : Option (List String)
deriving DecidableEq, Repr

/-- The OpenFDA response body: its list of matching records. -/
structure FdaBody where
  results : List FdaResult
deriving DecidableEq, Repr

/-- Outcome of the one outbound HTTP request: a network-level failure
(an exception from the requests library) or a response with a status
code and a JSON body. -/
inductive Upstream where
  | network (msg : String)
  | response (status : Nat) (body : FdaBody)
deriving DecidableEq, Repr

/-- The normalized record returned on success: exactly four fields. -/
structure DrugRecord where
  name : String
  manufacturer : String
  warnings : List String
  purpose : List String
deriving DecidableEq, Repr

/-- First generic name: the string itself when the field is a plain
string, the first element when it is a list, empty when absent. -/
def extractGenericName : Option StrOrList → String
  | none => ""
  | some (.str s) => s
  | some (.list l) => l.headD ""

/-- Normalization of the first matching record into the fixed-shape
result (spec section 4.2 field rules). -/
def normalizeRecord (r : FdaResult) : DrugRecord :=
  { name := extractGenericName r.generic_name
    manufacturer := (r.manufacturer_name.getD []).headD "Unknown"
    warnings := r.warnings.getD ["No warnings available"]
    purpose := r.purpose.getD [] }

/-- Modelled from the spec: `DrugInfoService.get_drug_info` of the
missing `services.py` (spec section 4.2). The outcome of the outbound
request is passed as data. Raises ValueError "drug_name is required" on
an empty name before any request; propagates a network failure as-is;
raises ValueError "OpenFDA API error: (status)" on a non-success
status; raises ValueError "No results found for this medication." on
zero matching records; otherwise normalizes the first record. -/
def get_drug_info (drug_name : String) (upstream : Upstream) :
    Except PyErr DrugRecord :=
  if drug_name = "" then
    .error (.valueError "drug_name is required")
  else
    match upstream with
    | .network msg => .error (.requestException msg)
    | .response sc body =>
      if sc ≠ 200 then
        .error (.valueError ("OpenFDA API error: " ++ toString sc))
      else
        match body.results with
        | [] => .error (.valueError "No results found for this medication.")
        | r :: _ => .ok (normalizeRecord r)

/-! ## External info orchestration (spec section 4.3; part of the missing
`models.py`) -/

/-- What `fetch_external_info` hands to the view: the client's record on
success, or a dict carrying an `error` field with the exception's
message. -/
inductive FetchResult where
  | info (r : DrugRecord)
  | errorDict (msg : String)
deriving DecidableEq, Repr

/-- Modelled from the spec: `Medication.fetch_external_info` of the
missing `models.py` (spec section 4.3). The client is passed as a
function from a drug name to its outcome; the method calls it once with
the medication's name — the second component records the list of calls
made — and converts any raised error into an `error`-field result
instead of propagating it. -/
def Medication.fetch_external_info (m : Medication)
    (client : String → Except PyErr DrugRecord) : FetchResult × List String :=
  (match client m.name with
   | .ok r => .info r
   | .error e => .errorDict e.message,
   [m.name])

/-! ## Views (`src/medtrackerapp/views.py`, embedded from source) -/

/-- A Python value as seen by `MedicationViewSet.get_external_info`:
enough of the dynamic value space to distinguish dicts, their `error`
entries, and non-dict results. -/
inductive PyVal where
  | pynone
  | pystr (s : String)
  | pyint (n : Int)
  | pylist (l : List PyVal)
  | pydict (entries : List (String × PyVal))

/-- Python truthiness of a value. -/
def PyVal.truthy : PyVal → Bool
  | .pynone => false
  | .pystr s => !(s = "")
  | .pyint n => !(n = 0)
  | .pylist l => !l.isEmpty
  | .pydict entries => !entries.isEmpty

/-- Python `d.get(key)`: the value at the key, or `None` when absent. -/
def dictGet (entries : List (String × PyVal)) (key : String) : PyVal :=
  match entries.find? (fun kv => kv.1 = key) with
  | some kv => kv.2
  | none => .pynone

/-- `views.py` lines 48-53 (`MedicationViewSet.get_external_info`), given
the value returned by `fetch_external_info`: status 502 with the data
when it is a dict whose `error` entry is truthy, else status 200 with
the data unchanged. -/
def get_external_info_view (data : PyVal) : Nat × PyVal :=
  match data with
  | .pydict entries =>
    if (dictGet entries "error").truthy then (502, data) else (200, data)
  | _ => (200, data)

/-- Outcome of `DoseLogViewSet.filter_by_date`: a 200 response with the
serialized logs, a 400 response, or an exception escaping the view
(Django renders an uncaught exception as a 500 server error). -/
inductive FilterOutcome where
  | ok (logs : List DoseLog)
  | badRequest
  | uncaught (exn : String)
deriving DecidableEq, Repr

/-- Digit test on a character. -/
def isDigitChar (c : Char) : Bool := ('0' ≤ c && c ≤ '9')

/-- Numeric value of a digit group (the groups fed to it are checked to
be all digits first). -/
def digitsToNat (cs : List Char) : Nat :=
  cs.foldl (fun acc c => 10 * acc + (c.toNat - '0'.toNat)) 0

/-- Split a character list on dashes into its dash-separated groups
(the groups of the date regex). -/
def splitDashes : List Char → List (List Char)
  | [] => [[]]
  | c :: rest =>
    if c = '-' then [] :: splitDashes rest
    else
      match splitDashes rest with
      | [] => [[c]]
      | g :: gs => (c :: g) :: gs

/-- The shape accepted by Django's date regex
`(\d{4})-(\d{1,2})-(\d{1,2})`: three dash-separated all-digit groups of
widths 4, 1-2, 1-2. -/
def parseYMD (s : String) : Option (Nat × Nat × Nat) :=
  match splitDashes s.data with
  | [ys, ms, ds] =>
    if ys.length = 4 && ys.all isDigitChar
        && 1 ≤ ms.length && ms.length ≤ 2 && ms.all isDigitChar
        && 1 ≤ ds.length && ds.length ≤ 2 && ds.all isDigitChar then
      some (digitsToNat ys, digitsToNat ms, digitsToNat ds)
    else none
  | _ => none

/-- `datetime.date` accepts year 1..9999, month 1..12, day within the
month's length. -/
def validYMD (y m d : Nat) : Bool :=
  1 ≤ y && y ≤ 9999 && 1 ≤ m && m ≤ 12 && 1 ≤ d && d ≤ daysInMonth y m

/-- What `django.utils.dateparse.parse_date` does with a value. -/
inductive ParseOutcome where
  | parsed (d : CalDate)
  | noMatch
  | raisesValueError
  | raisesTypeError
deriving DecidableEq, Repr

/-- `django.utils.dateparse.parse_date` applied to the raw query
parameter: on `None` (missing parameter) it raises `TypeError` (the
value is passed to `date.fromisoformat`, which requires a string); on a
string not matching the date shape it returns `None`; on a matching
string it constructs the date, raising `ValueError` when the numbers do
not form a valid calendar date. -/
def parse_date : Option String → ParseOutcome
  | none => .raisesTypeError
  | some s =>
    match parseYMD s with
    | none => .noMatch
    | some (y, m, d) =>
      if validYMD y m d then .parsed ⟨y, m, d⟩ else .raisesValueError

/-- The date-range filter applied by the queryset:
`taken_at__date__gte=start, taken_at__date__lte=end`. -/
def inDateRange (s e : CalDate) (log : DoseLog) : Bool :=
  s.toOrdinal ≤ log.taken_at.date.toOrdinal
    && log.taken_at.date.toOrdinal ≤ e.toOrdinal

/-- `views.py` lines 127-159 (`DoseLogViewSet.filter_by_date`): parse
`start` then `end` with `parse_date` (an exception from either escapes
the view); respond 400 when either parse returned `None`; otherwise
respond 200 with the logs whose `taken_at` date lies in the inclusive
range, ordered by `taken_at` ascending. -/
def filter_by_date (startParam endParam : Option String)
    (logs : List DoseLog) : FilterOutcome :=
  match parse_date startParam with
  | .raisesTypeError => .uncaught "TypeError"
  | .raisesValueError => .uncaught "ValueError"
  | startOut =>
    match parse_date endParam with
    | .raisesTypeError => .uncaught "TypeError"
    | .raisesValueError => .uncaught "ValueError"
    | endOut =>
      match startOut, endOut with
      | .parsed s, .parsed e =>
        .ok ((logs.filter (inDateRange s e)).mergeSort
          (fun a b => a.taken_at.key ≤ b.taken_at.key))
      | _, _ => .badRequest

/-! ## Helper lemmas -/

theorem roundHalfEven_dichotomy (q : ℚ) :
    roundHalfEven q = ⌊q⌋ ∨ roundHalfEven q = ⌊q⌋ + 1 := by
  unfold roundHalfEven
  split_ifs <;> simp

theorem roundHalfEven_nonneg {q : ℚ} (h : 0 ≤ q) : 0 ≤ roundHalfEven q := by
  have hfl : 0 ≤ ⌊q⌋ := Int.floor_nonneg.mpr h
  rcases roundHalfEven_dichotomy q with h1 | h1 <;> omega

theorem roundHalfEven_le_of_le {q : ℚ} {n : ℤ} (h : q ≤ (n : ℚ)) :
    roundHalfEven q ≤ n := by
  have hfl : ⌊q⌋ ≤ n := by
    have h2 := Int.floor_le_floor h
    rwa [Int.floor_intCast] at h2
  unfold roundHalfEven
  split_ifs with h1 h2
  · exact hfl
  · have hq : (⌊q⌋ : ℚ) < q := by linarith
    have h3 : (⌊q⌋ : ℚ) < (n : ℚ) := lt_of_lt_of_le hq h
    have h4 : ⌊q⌋ < n := by exact_mod_cast h3
    omega
  all_goals
    first
    | exact hfl
    | · have hq : (⌊q⌋ : ℚ) < q := by push_neg at h1; linarith
        have h3 : (⌊q⌋ : ℚ) < (n : ℚ) := lt_of_lt_of_le hq h
        have h4 : ⌊q⌋ < n := by exact_mod_cast h3
        omega

theorem round2_nonneg {q : ℚ} (h : 0 ≤ q) : 0 ≤ round2 q := by
  unfold round2
  have h1 : (0 : ℤ) ≤ roundHalfEven (q * 100) := roundHalfEven_nonneg (by positivity)
  have h2 : (0 : ℚ) ≤ (roundHalfEven (q * 100) : ℚ) := by exact_mod_cast h1
  positivity

theorem round2_le_hundred {q : ℚ} (h : q ≤ 100) : round2 q ≤ 100 := by
  unfold round2
  have h1 : roundHalfEven (q * 100) ≤ (10000 : ℤ) :=
    roundHalfEven_le_of_le (by push_cast; linarith)
  rw [div_le_iff₀ (by norm_num : (0:ℚ) < 100)]
  have h2 : ((roundHalfEven (q * 100) : ℤ) : ℚ) ≤ 10000 := by exact_mod_cast h1
  linarith

theorem round2_twoDecimal (q : ℚ) : TwoDecimal (round2 q) :=
  ⟨roundHalfEven (q * 100), rfl⟩

theorem roundHalfEven_intCast (z : ℤ) : roundHalfEven (z : ℚ) = z := by
  unfold roundHalfEven
  rw [Int.floor_intCast]
  norm_num

theorem round2_intCast (z : ℤ) : round2 (z : ℚ) = z := by
  unfold round2
  have h1 : (z : ℚ) * 100 = ((z * 100 : ℤ) : ℚ) := by push_cast; ring
  rw [h1, roundHalfEven_intCast]
  push_cast
  ring

theorem round2_eq_low {q : ℚ} {n : ℤ} (hf : ⌊q * 100⌋ = n)
    (hlt : q * 100 - (n : ℚ) < 1/2) : round2 q = (n : ℚ) / 100 := by
  unfold round2 roundHalfEven
  rw [hf, if_pos hlt]

theorem round2_eq_high {q : ℚ} {n : ℤ} (hf : ⌊q * 100⌋ = n)
    (hgt : 1/2 < q * 100 - (n : ℚ)) : round2 q = ((n + 1 : ℤ) : ℚ) / 100 := by
  unfold round2 roundHalfEven
  rw [hf, if_neg (by linarith), if_pos hgt]

theorem adherence_over_period_ok {m : Medication} {events : List DoseLog}
    {s e : CalDate} (hse : s.toOrdinal ≤ e.toOrdinal)
    (hp : 0 < m.prescribed_per_day) :
    m.adherence_rate_over_period events s e =
      .ok (adherencePeriodTail
        (m.prescribed_per_day * ((e.toOrdinal : ℤ) - (s.toOrdinal : ℤ) + 1))
        (countTakenInRange events s e)) := by
  unfold Medication.adherence_rate_over_period Medication.expected_doses
  rw [if_neg (by omega), if_neg (by omega)]
  rfl

theorem adherence_over_period_ok_inv {m : Medication} {events : List DoseLog}
    {s e : CalDate} {r : ℚ}
    (h : m.adherence_rate_over_period events s e = .ok r) :
    s.toOrdinal ≤ e.toOrdinal ∧ 0 < m.prescribed_per_day ∧
      r = adherencePeriodTail
        (m.prescribed_per_day * ((e.toOrdinal : ℤ) - (s.toOrdinal : ℤ) + 1))
        (countTakenInRange events s e) := by
  unfold Medication.adherence_rate_over_period Medication.expected_doses at h
  by_cases h1 : e.toOrdinal < s.toOrdinal
  · rw [if_pos h1] at h
    exact absurd h (by simp)
  · rw [if_neg h1] at h
    by_cases h2 : m.prescribed_per_day ≤ 0
    · rw [if_pos h2] at h
      exact absurd h (by simp [Bind.bind, Except.bind])
    · rw [if_neg h2] at h
      simp only [Bind.bind, Except.bind, Pure.pure, Except.pure, Except.ok.injEq] at h
      exact ⟨by omega, by omega, h.symm⟩

theorem adherencePeriodTail_nonneg {E : ℤ} {t : ℕ} (hE : 0 ≤ E) :
    0 ≤ adherencePeriodTail E t := by
  unfold adherencePeriodTail
  split_ifs with h
  · exact le_refl 0
  · apply round2_nonneg
    have h1 : (0 : ℚ) ≤ (E : ℚ) := by exact_mod_cast hE
    positivity

theorem adherencePeriodTail_le_hundred {E : ℤ} {t : ℕ} (hE : 0 < E)
    (ht : (t : ℤ) ≤ E) : adherencePeriodTail E t ≤ 100 := by
  unfold adherencePeriodTail
  split_ifs with h
  · norm_num
  · apply round2_le_hundred
    have hE2 : (0 : ℚ) < (E : ℚ) := by exact_mod_cast hE
    rw [div_le_iff₀ hE2]
    have ht2 : (t : ℚ) ≤ (E : ℚ) := by exact_mod_cast ht
    linarith

/-! ## Concrete inputs used by scenario conjuncts and witnesses -/

/-- The medication of the tests: Aspirin, 100mg, twice daily. -/
def aspirinMed : Medication := ⟨"Aspirin", 100, 2⟩

/-- Start of the 3-day window of the period-adherence scenario. -/
def exStart : CalDate := ⟨2025, 11, 24⟩

/-- End of the 3-day window of the period-adherence scenario. -/
def exEnd : CalDate := ⟨2025, 11, 26⟩

/-- The two dose events of the scenario test: one 30 hours before
2025-11-24 00:00 (i.e. 2025-11-22 18:00, outside the window) and one at
2025-11-24 23:00 (inside); both taken. Exactly one taken dose falls in
the window. -/
def exEvents : List DoseLog :=
  [⟨⟨⟨2025, 11, 22⟩, 1080⟩, true⟩, ⟨⟨⟨2025, 11, 24⟩, 1380⟩, true⟩]

/-- Evaluation of the scenario: 1 taken dose against 6 expected over the
3-day twice-daily window gives 16.67. -/
theorem exScenario_eval :
    aspirinMed.adherence_rate_over_period exEvents exStart exEnd =
      .ok (1667 / 100) := by
  rw [adherence_over_period_ok (by decide) (by decide)]
  have h1 : aspirinMed.prescribed_per_day *
      ((exEnd.toOrdinal : ℤ) - (exStart.toOrdinal : ℤ) + 1) = 6 := by decide
  have h2 : countTakenInRange exEvents exStart exEnd = 1 := by decide
  rw [h1, h2]
  have h3 : adherencePeriodTail 6 1 = 1667 / 100 := by
    rw [adherencePeriodTail, if_neg (by norm_num)]
    have h4 : 100 * ((1 : ℕ) : ℚ) / ((6 : ℤ) : ℚ) = 50 / 3 := by norm_num
    rw [h4, @round2_eq_high (50 / 3) 1666 (by norm_num) (by norm_num)]
    norm_num
  rw [h3]

/-- Claim C1 (confirmed): for every medication and inclusive date range
with start ≤ end whose expected dose count
`expected_doses(medication, number_of_days_inclusive)` is nonzero,
`adherence_rate_over_period` returns `round(100 * taken / expected, 2)`
where `taken` counts the taken dose events dated within the range; when
the computed expected count is zero the result is 0.0 immediately; and
the concrete scenario (twice daily, window 2025-11-24 to 2025-11-26
inclusive, exactly one taken dose logged in the window) returns 16.67. -/
theorem C1_adherence_rate_over_period :
    (∀ (m : Medication) (events : List DoseLog) (s e : CalDate) (expected : ℤ),
      s.toOrdinal ≤ e.toOrdinal →
      m.expected_doses ((e.toOrdinal : ℤ) - (s.toOrdinal : ℤ) + 1) = .ok expected →
      expected ≠ 0 →
      m.adherence_rate_over_period events s e =
        .ok (round2 (100 * (countTakenInRange events s e : ℚ) / (expected : ℚ))))
    ∧ (∀ taken : ℕ, adherencePeriodTail 0 taken = 0)
    ∧ aspirinMed.adherence_rate_over_period exEvents exStart exEnd =
        .ok (1667 / 100) := by
  refine ⟨?_, ?_, exScenario_eval⟩
  · intro m events s e expected hse hok hne
    have hp : 0 < m.prescribed_per_day := by
      by_contra hcon
      unfold Medication.expected_doses at hok
      rw [if_pos (by omega)] at hok
      exact absurd hok (by simp)
    have hval : expected =
        m.prescribed_per_day * ((e.toOrdinal : ℤ) - (s.toOrdinal : ℤ) + 1) := by
      unfold Medication.expected_doses at hok
      rw [if_neg (by omega)] at hok
      exact (Except.ok.inj hok).symm
    rw [adherence_over_period_ok hse hp, ← hval]
    rw [adherencePeriodTail, if_neg hne]
  · intro taken
    rw [adherencePeriodTail, if_pos rfl]

/-- Witness for C1: the general formula applied at the scenario input
(expected = 6). -/
theorem C1_witness :
    aspirinMed.adherence_rate_over_period exEvents exStart exEnd =
      .ok (round2 (100 * (countTakenInRange exEvents exStart exEnd : ℚ) /
        ((6 : ℤ) : ℚ))) :=
  C1_adherence_rate_over_period.1 aspirinMed exEvents exStart exEnd 6
    (by decide) rfl (by decide)

/-- Claim C2 (confirmed): `expected_doses` returns exactly
`prescribed_per_day * days` when `prescribed_per_day > 0` and raises
the configuration (invalid-argument) error whenever
`prescribed_per_day <= 0`; both clauses hold for every integer `days`,
positive or not — the function performs no validation of `days`. -/
theorem C2_expected_doses (m : Medication) (days : ℤ) :
    (0 < m.prescribed_per_day →
      m.expected_doses days = .ok (m.prescribed_per_day * days))
    ∧ (m.prescribed_per_day ≤ 0 →
      m.expected_doses days =
        .error "prescribed_per_day must be greater than zero.") := by
  constructor
  · intro h
    unfold Medication.expected_doses
    rw [if_neg (by omega)]
  · intro h
    unfold Medication.expected_doses
    rw [if_pos h]

/-- Witness for C2: twice daily for 3 days gives 6; `prescribed_per_day
= 0` raises for days = 1 and also for days = -5. -/
theorem C2_witness :
    (Medication.mk "As" 100 2).expected_doses 3 = .ok 6
    ∧ (Medication.mk "Aspirin" 100 0).expected_doses 1 =
        .error "prescribed_per_day must be greater than zero."
    ∧ (Medication.mk "Aspirin" 100 0).expected_doses (-5) =
        .error "prescribed_per_day must be greater than zero." :=
  ⟨(C2_expected_doses (Medication.mk "As" 100 2) 3).1 (by decide),
   (C2_expected_doses (Medication.mk "Aspirin" 100 0) 1).2 (by decide),
   (C2_expected_doses (Medication.mk "Aspirin" 100 0) (-5)).2 (by decide)⟩

/-- Claim C3 (confirmed): `adherence_rate` is the percentage of taken
events among all logged events; it returns 0.0 on an empty event list
(no error raised) and 100.0 whenever the list is nonempty and every
event is taken, with no cross-check against `expected_doses`. -/
theorem C3_adherence_rate (m : Medication) (events : List DoseLog) :
    (events = [] → m.adherence_rate events = 0)
    ∧ (events ≠ [] →
        m.adherence_rate events =
          round2 (100 * (countTaken events : ℚ) / (events.length : ℚ)))
    ∧ (events ≠ [] → (∀ ev ∈ events, ev.was_taken = true) →
        m.adherence_rate events = 100) := by
  have hne : ∀ (_ : events ≠ []), ¬(events.isEmpty = true) := by
    intro h
    simpa [List.isEmpty_iff] using h
  refine ⟨?_, ?_, ?_⟩
  · intro h
    subst h
    rfl
  · intro h
    unfold Medication.adherence_rate
    rw [if_neg (hne h)]
  · intro h hall
    have hct : countTaken events = events.length := by
      unfold countTaken
      rw [List.filter_eq_self.mpr hall]
    unfold Medication.adherence_rate
    rw [if_neg (hne h), hct]
    have hlen : ((events.length : ℚ)) ≠ 0 := by
      have h2 : events.length ≠ 0 := by
        simpa [List.length_eq_zero] using h
      exact_mod_cast h2
    rw [mul_div_assoc, div_self hlen, mul_one]
    have h100 := round2_intCast 100
    norm_num at h100
    exact h100

/-- Witness for C3: two taken events (the all-taken test) give 100.0. -/
theorem C3_witness :
    aspirinMed.adherence_rate
      [⟨⟨⟨2025, 11, 24⟩, 0⟩, true⟩, ⟨⟨⟨2025, 11, 25⟩, 0⟩, true⟩] = 100 :=
  (C3_adherence_rate aspirinMed
      [⟨⟨⟨2025, 11, 24⟩, 0⟩, true⟩, ⟨⟨⟨2025, 11, 25⟩, 0⟩, true⟩]).2.2
    (by decide) (by decide)

/-- Claim C4 (confirmed): whenever start_date > end_date,
`adherence_rate_over_period` raises the range (invalid-argument) error
without computing a rate. -/
theorem C4_range_error (m : Medication) (events : List DoseLog)
    (s e : CalDate) (h : e.toOrdinal < s.toOrdinal) :
    m.adherence_rate_over_period events s e =
      .error "start_date must be before or equal to end_date." := by
  unfold Medication.adherence_rate_over_period
  rw [if_pos h]

/-- Witness for C4: the dates of the repository's test
(start 2020-05-15, end 2020-01-31). -/
theorem C4_witness :
    aspirinMed.adherence_rate_over_period [] ⟨2020, 5, 15⟩ ⟨2020, 1, 31⟩ =
      .error "start_date must be before or equal to end_date." :=
  C4_range_error aspirinMed [] ⟨2020, 5, 15⟩ ⟨2020, 1, 31⟩ (by decide)

/-- A once-daily medication used in the over-logging counterexample. -/
def onceDailyMed : Medication := ⟨"Placebo", 0, 1⟩

/-- Two taken doses both logged on 2025-01-01. -/
def doubleLogged : List DoseLog :=
  [⟨⟨⟨2025, 1, 1⟩, 0⟩, true⟩, ⟨⟨⟨2025, 1, 1⟩, 60⟩, true⟩]

/-- Counterexample to claim C5 as stated: `adherence_rate_over_period`
is not bounded by 100. Over the one-day window 2025-01-01..2025-01-01 a
once-daily medication with two taken doses logged that day returns
200.0, outside [0, 100]: nothing caps `taken` at `expected`. -/
theorem C5_counterexample :
    onceDailyMed.adherence_rate_over_period doubleLogged
        ⟨2025, 1, 1⟩ ⟨2025, 1, 1⟩ = .ok 200
      ∧ ¬((200 : ℚ) ≤ 100) := by
  constructor
  · rw [adherence_over_period_ok (by decide) (by decide)]
    have h1 : onceDailyMed.prescribed_per_day *
        (((CalDate.mk 2025 1 1).toOrdinal : ℤ) -
          ((CalDate.mk 2025 1 1).toOrdinal : ℤ) + 1) = 1 := by decide
    have h2 : countTakenInRange doubleLogged ⟨2025, 1, 1⟩ ⟨2025, 1, 1⟩ = 2 := by
      decide
    rw [h1, h2]
    have h3 : adherencePeriodTail 1 2 = 200 := by
      rw [adherencePeriodTail, if_neg (by norm_num)]
      have h4 : 100 * ((2 : ℕ) : ℚ) / ((1 : ℤ) : ℚ) = ((200 : ℤ) : ℚ) := by
        norm_num
      rw [h4, round2_intCast]
      norm_num
    rw [h3]
  · norm_num

/-- Every value of the period-adherence tail has two decimal places. -/
theorem adherencePeriodTail_twoDecimal (E : ℤ) (t : ℕ) :
    TwoDecimal (adherencePeriodTail E t) := by
  unfold adherencePeriodTail
  split_ifs with h
  · exact ⟨0, by norm_num⟩
  · exact round2_twoDecimal _

/-- Claim C5, amended (the counterexample refutes the stated [0, 100]
bound for `adherence_rate_over_period`): every returned
`adherence_rate` lies in [0, 100] and has two decimal places; every
value returned by `adherence_rate_over_period` is nonnegative with two
decimal places, and is at most 100 whenever the taken count does not
exceed the expected count. -/
theorem C5_rate_bounds (m : Medication) (events : List DoseLog)
    (s e : CalDate) (r : ℚ) :
    (0 ≤ m.adherence_rate events ∧ m.adherence_rate events ≤ 100
      ∧ TwoDecimal (m.adherence_rate events))
    ∧ (m.adherence_rate_over_period events s e = .ok r →
        0 ≤ r ∧ TwoDecimal r
          ∧ ((countTakenInRange events s e : ℤ) ≤
              m.prescribed_per_day * ((e.toOrdinal : ℤ) - (s.toOrdinal : ℤ) + 1) →
              r ≤ 100)) := by
  constructor
  · unfold Medication.adherence_rate
    split_ifs with h
    · exact ⟨le_refl 0, by norm_num, ⟨0, by norm_num⟩⟩
    · have hlen : 0 < events.length := by
        cases events with
        | nil => simp at h
        | cons a l => simp
      have hlenq : (0 : ℚ) < (events.length : ℚ) := by exact_mod_cast hlen
      have hct : countTaken events ≤ events.length := List.length_filter_le _ _
      have hctq : ((countTaken events : ℕ) : ℚ) ≤ (events.length : ℚ) := by
        exact_mod_cast hct
      refine ⟨round2_nonneg (by positivity), round2_le_hundred ?_,
        round2_twoDecimal _⟩
      rw [div_le_iff₀ hlenq]
      linarith
  · intro hok
    obtain ⟨hse, hp, hr⟩ := adherence_over_period_ok_inv hok
    have hdays : (0 : ℤ) < (e.toOrdinal : ℤ) - (s.toOrdinal : ℤ) + 1 := by
      have h2 : (s.toOrdinal : ℤ) ≤ (e.toOrdinal : ℤ) := by exact_mod_cast hse
      omega
    have hE : 0 < m.prescribed_per_day *
        ((e.toOrdinal : ℤ) - (s.toOrdinal : ℤ) + 1) := mul_pos hp hdays
    subst hr
    exact ⟨adherencePeriodTail_nonneg (le_of_lt hE),
      adherencePeriodTail_twoDecimal _ _,
      fun ht => adherencePeriodTail_le_hundred hE ht⟩

/-- Witness for C5 (amended): at the scenario input the returned 16.67
is nonnegative, two-decimal, and at most 100 (1 taken ≤ 6 expected). -/
theorem C5_witness :
    (0 : ℚ) ≤ 1667 / 100 ∧ TwoDecimal ((1667 : ℚ) / 100)
      ∧ (1667 : ℚ) / 100 ≤ 100 := by
  have h := (C5_rate_bounds aspirinMed exEvents exStart exEnd
    (1667 / 100)).2 exScenario_eval
  exact ⟨h.1, h.2.1, h.2.2 (by decide)⟩

/-- Claim C6 (confirmed): `get_drug_info` raises the invalid-argument
ValueError "drug_name is required" on the empty name (whatever the
upstream would do); on a non-success upstream status it raises the
domain error "OpenFDA API error: (status)"; on a response with zero
matching records it raises "No results found for this medication.";
and a network-level failure propagates as the original exception,
not rewrapped. -/
theorem C6_get_drug_info_errors (name msg : String) (sc : Nat)
    (body : FdaBody) :
    (∀ upstream, get_drug_info "" upstream =
      .error (.valueError "drug_name is required"))
    ∧ (name ≠ "" → sc ≠ 200 →
        get_drug_info name (.response sc body) =
          .error (.valueError ("OpenFDA API error: " ++ toString sc)))
    ∧ (name ≠ "" →
        get_drug_info name (.response 200 ⟨[]⟩) =
          .error (.valueError "No results found for this medication."))
    ∧ (name ≠ "" →
        get_drug_info name (.network msg) = .error (.requestException msg)) := by
  refine ⟨?_, ?_, ?_, ?_⟩
  · intro upstream
    rfl
  · intro h1 h2
    unfold get_drug_info
    rw [if_neg h1]
    exact if_pos h2
  · intro h1
    unfold get_drug_info
    rw [if_neg h1]
    exact rfl
  · intro h1
    unfold get_drug_info
    rw [if_neg h1]

/-- Witness for C6: the four error scenarios of the service tests, with
the upstream status 404 instance. -/
theorem C6_witness :
    get_drug_info "" (.response 200 ⟨[]⟩) =
      .error (.valueError "drug_name is required")
    ∧ get_drug_info "ibuprofen" (.response 404 ⟨[]⟩) =
        .error (.valueError "OpenFDA API error: 404")
    ∧ get_drug_info "ibuprofen" (.response 200 ⟨[]⟩) =
        .error (.valueError "No results found for this medication.")
    ∧ get_drug_info "ibuprofen" (.network "Simulated Network Error") =
        .error (.requestException "Simulated Network Error") :=
  ⟨(C6_get_drug_info_errors "ibuprofen" "m" 404 ⟨[]⟩).1 (.response 200 ⟨[]⟩),
   (C6_get_drug_info_errors "ibuprofen" "m" 404 ⟨[]⟩).2.1 (by decide) (by decide),
   (C6_get_drug_info_errors "ibuprofen" "m" 404 ⟨[]⟩).2.2.1 (by decide),
   (C6_get_drug_info_errors "ibuprofen" "Simulated Network Error" 404
     ⟨[]⟩).2.2.2 (by decide)⟩

/-- Claim C7 (confirmed): on a successful upstream response
`get_drug_info` uses only the first matching record (further records
are ignored: the result below does not depend on `rest`) and returns a
record with exactly the four fields name, manufacturer, warnings,
purpose, where the name is the first generic name whether the source
field is a plain string or a list, the manufacturer defaults to
"Unknown" when absent, the warnings default to
["No warnings available"] when absent, and the purpose is the source
purpose list when present. -/
theorem C7_get_drug_info_success (name : String) (r : FdaResult)
    (rest : List FdaResult) (h : name ≠ "") :
    get_drug_info name (.response 200 ⟨r :: rest⟩) =
      .ok { name := extractGenericName r.generic_name
            manufacturer := (r.manufacturer_name.getD []).headD "Unknown"
            warnings := r.warnings.getD ["No warnings available"]
            purpose := r.purpose.getD [] }
    ∧ (∀ s, extractGenericName (some (.str s)) = s)
    ∧ (∀ s l, extractGenericName (some (.list (s :: l))) = s)
    ∧ (r.manufacturer_name = none →
        (r.manufacturer_name.getD []).headD "Unknown" = "Unknown")
    ∧ (r.warnings = none →
        r.warnings.getD ["No warnings available"] = ["No warnings available"])
    ∧ (∀ l : List String, r.purpose = some l → r.purpose.getD [] = l) := by
  refine ⟨?_, fun s => rfl, fun s l => rfl, ?_, ?_, ?_⟩
  · unfold get_drug_info
    rw [if_neg h]
    exact rfl
  · intro h2
    rw [h2]
    rfl
  · intro h2
    rw [h2]
    rfl
  · intro l h2
    rw [h2]
    rfl

/-- The partial-data record of the service tests: a plain-string
generic name, no manufacturer, no warnings, one purpose entry. -/
def partialRecord : FdaResult :=
  ⟨some (.str "SingleName"), none, none, some ["Single purpose list"]⟩

/-- Witness for C7: the partial-data test — name parsed from a plain
string, manufacturer "Unknown", warnings ["No warnings available"],
purpose kept. -/
theorem C7_witness :
    get_drug_info "ibuprofen" (.response 200 ⟨[partialRecord]⟩) =
      .ok ⟨"SingleName", "Unknown", ["No warnings available"],
        ["Single purpose list"]⟩ :=
  (C7_get_drug_info_success "ibuprofen" partialRecord [] (by decide)).1

/-- Claim C8 (confirmed): `fetch_external_info` calls the client
exactly once, with the medication's name, and converts any error the
client raises into a result carrying an `error` field equal to the
error's message string instead of propagating the exception. -/
theorem C8_fetch_external_info (m : Medication)
    (client : String → Except PyErr DrugRecord) :
    (m.fetch_external_info client).2 = [m.name]
    ∧ (∀ e : PyErr, client m.name = .error e →
        (m.fetch_external_info client).1 = .errorDict e.message) := by
  constructor
  · rfl
  · intro e he
    unfold Medication.fetch_external_info
    rw [he]

/-- Witness for C8: the failing-client test — a client raising
ValueError("External service validation failed: Missing drug name.")
yields an error dict with that exact message, after exactly one call
with the medication's name. -/
theorem C8_witness :
    ((Medication.mk "FailingDrug" 10 1).fetch_external_info
        (fun _ => .error (.valueError
          "External service validation failed: Missing drug name."))).1 =
      .errorDict "External service validation failed: Missing drug name."
    ∧ ((Medication.mk "FailingDrug" 10 1).fetch_external_info
        (fun _ => .error (.valueError
          "External service validation failed: Missing drug name."))).2 =
      ["FailingDrug"] :=
  ⟨(C8_fetch_external_info (Medication.mk "FailingDrug" 10 1)
      (fun _ => .error (.valueError
        "External service validation failed: Missing drug name."))).2
    (.valueError "External service validation failed: Missing drug name.") rfl,
   (C8_fetch_external_info (Medication.mk "FailingDrug" 10 1)
      (fun _ => .error (.valueError
        "External service validation failed: Missing drug name."))).1⟩

/-- Claim C9 (code bug): the view's own docstring and the claim promise
a 400 response when `start` or `end` is missing, but a missing
parameter reaches `parse_date(None)`, which raises TypeError — an
unhandled exception, not a 400. A well-formed but invalid date such as
2025-13-01 likewise raises ValueError out of the view. A present but
unparseable string (the test's 2025/11/01) does get the 400, and two
valid dates get the 200 with the logs dated in the inclusive range
ordered by timestamp ascending. -/
theorem C9_filter_by_date_behaviour :
    filter_by_date none (some "2025-11-07") [] = .uncaught "TypeError"
    ∧ filter_by_date (some "2025-11-01") none [] = .uncaught "TypeError"
    ∧ filter_by_date (some "2025/11/01") (some "2025-11-07") [] = .badRequest
    ∧ filter_by_date (some "2025-13-01") (some "2025-11-07") [] =
        .uncaught "ValueError"
    ∧ (∀ logs : List DoseLog,
        filter_by_date (some "2025-11-24") (some "2025-11-26") logs =
          .ok ((logs.filter (inDateRange ⟨2025, 11, 24⟩ ⟨2025, 11, 26⟩)).mergeSort
            (fun a b => a.taken_at.key ≤ b.taken_at.key))) :=
  ⟨by decide, by decide, by decide, by decide, fun logs => rfl⟩

/-- Claim C10 (confirmed): the info endpoint responds 502 exactly when
`fetch_external_info` returned a dict whose `error` value is truthy;
a dict whose `error` is the empty string or None, and any non-dict
value, are echoed back with a 200. -/
theorem C10_get_external_info_view (data : PyVal)
    (entries : List (String × PyVal)) :
    ((dictGet entries "error").truthy = true →
      get_external_info_view (.pydict entries) = (502, .pydict entries))
    ∧ ((dictGet entries "error").truthy = false →
      get_external_info_view (.pydict entries) = (200, .pydict entries))
    ∧ ((∀ l, data ≠ .pydict l) → get_external_info_view data = (200, data))
    ∧ get_external_info_view (.pydict [("error", .pystr "")]) =
        (200, .pydict [("error", .pystr "")])
    ∧ get_external_info_view (.pydict [("error", .pynone)]) =
        (200, .pydict [("error", .pynone)]) := by
  refine ⟨?_, ?_, ?_, rfl, rfl⟩
  · intro h
    unfold get_external_info_view
    exact if_pos h
  · intro h
    unfold get_external_info_view
    exact if_neg (by simp [h])
  · intro h
    cases data with
    | pydict l => exact absurd rfl (h l)
    | pynone => rfl
    | pystr s => rfl
    | pyint n => rfl
    | pylist l => rfl

/-- Witness for C10: the failure test's dict {error: "External API
down"} gets the 502 with the dict echoed. -/
theorem C10_witness :
    get_external_info_view (.pydict [("error", .pystr "External API down")]) =
      (502, .pydict [("error", .pystr "External API down")]) :=
  (C10_get_external_info_view .pynone
    [("error", .pystr "External API down")]).1 rfl
